import Mathlib

/-!
# Host memory statistics reader (`memory_info.c`)

A shallow embedding of `get_memory_info` from
`archived/craft/src/lfs/commands/c_utils/memory_info.c` together with the
record `MemoryInfo` of `memory_info.h`.

* `uint64_t` values are natural numbers; every `uint64_t` operation of the
  source is followed by an explicit reduction modulo `2 ^ 64`.
* The function writes through a pointer, so the embedding takes the record the
  caller passed in and returns the record as it stands after the call.
* The Mach host interface is an input: `HostReply` holds what the kernel
  answered to the three calls the function makes.
* The only process state the function can touch is the number of references on
  the host port held by the task, kept in `PortSpace`.
* The in/out element count `host_size` is passed to the kernel and never read
  back, so it does not appear; `info` is taken to point to a valid record.
-/

namespace MemoryInfoC

/-! ## Machine integers -/

/-- Modulus of `uint64_t` arithmetic. -/
def UINT64_MOD : Nat := 2 ^ 64

/-- Modulus of `natural_t` (the 32-bit unsigned type of the kernel page counters). -/
def NATURAL_MOD : Nat := 2 ^ 32

/-- The cast `(uint64_t)x` of an unsigned value. -/
def to_uint64 (x : Nat) : Nat := x % UINT64_MOD

/-- The product `a * b` of two `uint64_t` operands. -/
def mul_u64 (a b : Nat) : Nat := (a * b) % UINT64_MOD

/-- The sum `a + b` of two `uint64_t` operands. -/
def add_u64 (a b : Nat) : Nat := (a + b) % UINT64_MOD

/-! ## Data model -/

/-- The record `MemoryInfo` of `memory_info.h`: five `uint64_t` byte counts. -/
structure MemoryInfo where
  free_memory : Nat
  active_memory : Nat
  inactive_memory : Nat
  wired_memory : Nat
  total_memory : Nat
  deriving DecidableEq, Repr

/-- The Mach status type `kern_return_t` (a C `int`). -/
abbrev kern_return_t := Int

/-- The Mach status constant `KERN_SUCCESS`. -/
def KERN_SUCCESS : kern_return_t := 0

/-- The four counters of `vm_statistics64_data_t` that the function reads;
each is a `natural_t` in the kernel interface. -/
structure vm_statistics64 where
  free_count : Nat
  active_count : Nat
  inactive_count : Nat
  wire_count : Nat
  deriving DecidableEq, Repr

/-- Well-formedness of the counters: each one fits in `natural_t`. -/
def vm_statistics64.fits (s : vm_statistics64) : Prop :=
  s.free_count < NATURAL_MOD ∧ s.active_count < NATURAL_MOD ∧
    s.inactive_count < NATURAL_MOD ∧ s.wire_count < NATURAL_MOD

instance vm_statistics64.fits_decidable (s : vm_statistics64) : Decidable s.fits := by
  unfold vm_statistics64.fits; infer_instance

/-- What the host interface answers during one call of `get_memory_info`:
the port name handed out by `mach_host_self`, the status of `host_page_size`
and the contents of the local `pagesize` after it, the status of
`host_statistics64` and the contents of the local `vm_stat` after it. -/
structure HostReply where
  host_port : Nat
  page_size_kr : kern_return_t
  pagesize : Nat
  statistics_kr : kern_return_t
  vm_stat : vm_statistics64
  deriving DecidableEq, Repr

/-- The part of the task state a host query can change: how many references
on the host port the task holds. -/
structure PortSpace where
  host_refs : Nat
  deriving DecidableEq, Repr

/-! ## The host interface -/

/-- Modelled from the spec: the Mach call `mach_host_self` is not part of the
repository. The spec speaks of a handle that is obtained from the host
interface and has to be released; obtaining it gives the task one more
reference on the host port. -/
def mach_host_self (k : HostReply) (t : PortSpace) : Nat × PortSpace :=
  (k.host_port, { t with host_refs := t.host_refs + 1 })

/-- Modelled from the spec: the release operation for a handle obtained from
the host interface (`mach_port_deallocate` in Mach); it gives one reference
back. `get_memory_info` contains no call of it. -/
def mach_port_deallocate (t : PortSpace) (_port : Nat) : PortSpace :=
  { t with host_refs := t.host_refs - 1 }

/-- The call `host_page_size(host_port, &pagesize)`: its status and the
contents of `pagesize` afterwards. -/
def host_page_size (k : HostReply) (_port : Nat) : kern_return_t × Nat :=
  (k.page_size_kr, k.pagesize)

/-- The call `host_statistics64(host_port, HOST_VM_INFO, &vm_stat, &host_size)`:
its status and the contents of `vm_stat` afterwards. -/
def host_statistics64 (k : HostReply) (_port : Nat) : kern_return_t × vm_statistics64 :=
  (k.statistics_kr, k.vm_stat)

/-! ## The function -/

/-- The observable outcome of one call: the returned `int`, the caller's record
after the call, and the task's port state after the call. -/
structure Outcome where
  ret : Int
  info : MemoryInfo
  space : PortSpace
  deriving DecidableEq, Repr

/-- The function `get_memory_info(MemoryInfo *info)`, statement by statement. -/
def get_memory_info (k : HostReply) (t : PortSpace) (info : MemoryInfo) : Outcome :=
  -- host_port = mach_host_self();
  let acquired := mach_host_self k t
  let host_port := acquired.1
  let t1 := acquired.2
  -- host_page_size(host_port, &pagesize);   (the status is dropped)
  let pagesize := (host_page_size k host_port).2
  -- if (host_statistics64(...) != KERN_SUCCESS) return 1;
  let answer := host_statistics64 k host_port
  if answer.1 ≠ KERN_SUCCESS then
    { ret := 1, info := info, space := t1 }
  else
    let vm_stat := answer.2
    let info1 := { info with
      free_memory := mul_u64 (to_uint64 vm_stat.free_count) (to_uint64 pagesize) }
    let info2 := { info1 with
      active_memory := mul_u64 (to_uint64 vm_stat.active_count) (to_uint64 pagesize) }
    let info3 := { info2 with
      inactive_memory := mul_u64 (to_uint64 vm_stat.inactive_count) (to_uint64 pagesize) }
    let info4 := { info3 with
      wired_memory := mul_u64 (to_uint64 vm_stat.wire_count) (to_uint64 pagesize) }
    let info5 := { info4 with
      total_memory :=
        add_u64 (add_u64 (add_u64 info4.free_memory info4.active_memory)
          info4.inactive_memory) info4.wired_memory }
    { ret := 0, info := info5, space := t1 }

/-- Repeated invocation: one call per host reply, each on the port state and
the record left by the previous call; the outcome is that of the last call. -/
def repeated_calls : List HostReply → Outcome → Outcome
  | [], r => r
  | k :: ks, r => repeated_calls ks (get_memory_info k r.space r.info)

/-- The exact integer sum of the four per-category byte counts of a record. -/
def byte_sum (m : MemoryInfo) : Nat :=
  m.free_memory + m.active_memory + m.inactive_memory + m.wired_memory

/-- A host reply with 32-bit counters and a 32-bit page size whose byte counts
add up to `2 ^ 64`. -/
def wrapping_reply : HostReply :=
  { host_port := 0, page_size_kr := KERN_SUCCESS, pagesize := 2 ^ 31,
    statistics_kr := KERN_SUCCESS,
    vm_stat :=
      { free_count := 2 ^ 31, active_count := 2 ^ 31,
        inactive_count := 2 ^ 31, wire_count := 2 ^ 31 } }

/-- The host reply of scenario 1: 4096-byte pages, counts 100, 200, 50, 25. -/
def scenario1_reply (port : Nat) (page_size_kr : kern_return_t) : HostReply :=
  { host_port := port, page_size_kr := page_size_kr, pagesize := 4096,
    statistics_kr := KERN_SUCCESS,
    vm_stat :=
      { free_count := 100, active_count := 200, inactive_count := 50, wire_count := 25 } }

/-- A host reply whose statistics query fails with `KERN_FAILURE` (5). -/
def failing_reply : HostReply :=
  { host_port := 0, page_size_kr := KERN_SUCCESS, pagesize := 4096,
    statistics_kr := 5,
    vm_stat :=
      { free_count := 100, active_count := 200, inactive_count := 50, wire_count := 25 } }

/-- A host reply of a large-page platform (16384-byte pages) with all counters zero. -/
def idle_reply : HostReply :=
  { host_port := 0, page_size_kr := KERN_SUCCESS, pagesize := 16384,
    statistics_kr := KERN_SUCCESS,
    vm_stat := { free_count := 0, active_count := 0, inactive_count := 0, wire_count := 0 } }

/-- A record holding recognisable stale values. -/
def stale_info : MemoryInfo :=
  { free_memory := 1, active_memory := 2, inactive_memory := 3, wired_memory := 4,
    total_memory := 5 }

/-- A record holding zeros. -/
def zero_info : MemoryInfo :=
  { free_memory := 0, active_memory := 0, inactive_memory := 0, wired_memory := 0,
    total_memory := 0 }

/-! ## Shared lemmas -/

theorem get_memory_info_failure (k : HostReply) (t : PortSpace) (info : MemoryInfo)
    (h : k.statistics_kr ≠ KERN_SUCCESS) :
    get_memory_info k t info =
      { ret := 1, info := info, space := { host_refs := t.host_refs + 1 } } := by
  simp [get_memory_info, host_statistics64, mach_host_self, h]

theorem get_memory_info_success (k : HostReply) (t : PortSpace) (info : MemoryInfo)
    (h : k.statistics_kr = KERN_SUCCESS) :
    get_memory_info k t info =
      { ret := 0,
        info :=
          { free_memory := (k.vm_stat.free_count % 2 ^ 64 * (k.pagesize % 2 ^ 64)) % 2 ^ 64,
            active_memory := (k.vm_stat.active_count % 2 ^ 64 * (k.pagesize % 2 ^ 64)) % 2 ^ 64,
            inactive_memory :=
              (k.vm_stat.inactive_count % 2 ^ 64 * (k.pagesize % 2 ^ 64)) % 2 ^ 64,
            wired_memory := (k.vm_stat.wire_count % 2 ^ 64 * (k.pagesize % 2 ^ 64)) % 2 ^ 64,
            total_memory :=
              ((((k.vm_stat.free_count % 2 ^ 64 * (k.pagesize % 2 ^ 64)) % 2 ^ 64 +
                    (k.vm_stat.active_count % 2 ^ 64 * (k.pagesize % 2 ^ 64)) % 2 ^ 64) % 2 ^ 64 +
                  (k.vm_stat.inactive_count % 2 ^ 64 * (k.pagesize % 2 ^ 64)) % 2 ^ 64) % 2 ^ 64 +
                (k.vm_stat.wire_count % 2 ^ 64 * (k.pagesize % 2 ^ 64)) % 2 ^ 64) % 2 ^ 64 },
        space := { host_refs := t.host_refs + 1 } } := by
  simp [get_memory_info, host_statistics64, host_page_size, mach_host_self, h,
    mul_u64, add_u64, to_uint64, UINT64_MOD]

/-- In the model of the host interface a release undoes an acquisition; the
function performs the acquisition only. -/
theorem release_after_acquire (k : HostReply) (t : PortSpace) :
    mach_port_deallocate (mach_host_self k t).2 (mach_host_self k t).1 = t := by
  simp [mach_port_deallocate, mach_host_self]

/-- A product of a 32-bit count and a 32-bit page size is below `2 ^ 64`. -/
theorem mul_lt_of_fit (c p : Nat) (hc : c < 2 ^ 32) (hp : p < 2 ^ 32) :
    c * p < 2 ^ 64 := by
  have h : c * p < 2 ^ 32 * 2 ^ 32 := Nat.mul_lt_mul_of_lt_of_lt hc hp
  norm_num at h ⊢
  exact h

/-- The port state after a run of calls: one more reference per call. -/
theorem repeated_calls_host_refs (ks : List HostReply) (r : Outcome) :
    (repeated_calls ks r).space.host_refs = r.space.host_refs + ks.length := by
  induction ks generalizing r with
  | nil => simp [repeated_calls]
  | cons k ks ih =>
    rw [repeated_calls, ih]
    by_cases h : k.statistics_kr = KERN_SUCCESS
    · rw [get_memory_info_success k _ _ h]
      simp only [List.length_cons]
      omega
    · rw [get_memory_info_failure k _ _ h]
      simp only [List.length_cons]
      omega

/-! ## C1: the total and the sum of the four byte counts -/

/-- C1, as stated, fails: with 32-bit counters 2^31 each and page size 2^31 the
query succeeds, every byte count is 2^62, their exact sum is 2^64, and the
`total_memory` written is 0. -/
theorem C1_total_wraps :
    wrapping_reply.vm_stat.fits ∧ wrapping_reply.pagesize < 2 ^ 32 ∧
      (get_memory_info wrapping_reply ⟨0⟩ zero_info).ret = 0 ∧
      byte_sum (get_memory_info wrapping_reply ⟨0⟩ zero_info).info = 2 ^ 64 ∧
      (get_memory_info wrapping_reply ⟨0⟩ zero_info).info.total_memory = 0 ∧
      (get_memory_info wrapping_reply ⟨0⟩ zero_info).info.total_memory ≠
        byte_sum (get_memory_info wrapping_reply ⟨0⟩ zero_info).info := by
  decide

/-- C1, amended: for every successful query `total_memory` is the sum of the
four byte counts of the same result reduced modulo 2^64; it is the exact
integer sum whenever that sum is below 2^64, which is the case whenever the
four counters are 32-bit values and the page size is at most 2^30. -/
theorem C1_total_is_sum_mod (k : HostReply) (t : PortSpace) (info : MemoryInfo)
    (h : k.statistics_kr = KERN_SUCCESS) :
    (get_memory_info k t info).info.total_memory =
        byte_sum (get_memory_info k t info).info % 2 ^ 64 ∧
      (byte_sum (get_memory_info k t info).info < 2 ^ 64 →
        (get_memory_info k t info).info.total_memory =
          byte_sum (get_memory_info k t info).info) ∧
      (k.vm_stat.fits → k.pagesize ≤ 2 ^ 30 →
        (get_memory_info k t info).info.total_memory =
          byte_sum (get_memory_info k t info).info) := by
  rw [get_memory_info_success k t info h]
  simp only [byte_sum]
  have hmod : ∀ a b c d : Nat,
      (((a + b) % 2 ^ 64 + c) % 2 ^ 64 + d) % 2 ^ 64 = (a + b + c + d) % 2 ^ 64 := by
    intro a b c d
    omega
  refine ⟨hmod _ _ _ _, ?_, ?_⟩
  · intro hlt
    rw [hmod, Nat.mod_eq_of_lt hlt]
  · intro hfit hp
    rw [hmod]
    apply Nat.mod_eq_of_lt
    obtain ⟨hf, ha, hi, hw⟩ := hfit
    simp only [NATURAL_MOD] at hf ha hi hw
    have hp64 : k.pagesize % 2 ^ 64 = k.pagesize := Nat.mod_eq_of_lt (by omega)
    have bound : ∀ c : Nat, c < 2 ^ 32 →
        (c % 2 ^ 64 * (k.pagesize % 2 ^ 64)) % 2 ^ 64 ≤ (2 ^ 32 - 1) * 2 ^ 30 := by
      intro c hc
      rw [hp64, Nat.mod_eq_of_lt (show c < 2 ^ 64 by omega)]
      have h1 : c * k.pagesize ≤ (2 ^ 32 - 1) * 2 ^ 30 :=
        Nat.mul_le_mul (by omega) hp
      exact le_trans (Nat.mod_le _ _) h1
    have b1 := bound _ hf
    have b2 := bound _ ha
    have b3 := bound _ hi
    have b4 := bound _ hw
    norm_num at b1 b2 b3 b4 ⊢
    omega

/-- C1, amended, at scenario 1: the sum 1536000 is below 2^64 and is the total. -/
theorem C1_total_is_sum_mod_witness :
    (scenario1_reply 0 0).statistics_kr = KERN_SUCCESS ∧
      (get_memory_info (scenario1_reply 0 0) ⟨0⟩ stale_info).info.total_memory = 1536000 ∧
      byte_sum (get_memory_info (scenario1_reply 0 0) ⟨0⟩ stale_info).info = 1536000 :=
  ⟨rfl,
    ((C1_total_is_sum_mod (scenario1_reply 0 0) ⟨0⟩ stale_info rfl).2.1 (by decide)).trans
      (by decide),
    by decide⟩

/-! ## C2: the return value -/

/-- C2: the function returns a non-zero value exactly when the statistics query
reports a status other than `KERN_SUCCESS`; whatever the page size and the
counters, a success status gives return value 0 (and a failure gives 1). -/
theorem C2_failure_iff_query_fails (k : HostReply) (t : PortSpace) (info : MemoryInfo) :
    ((get_memory_info k t info).ret ≠ 0 ↔ k.statistics_kr ≠ KERN_SUCCESS) ∧
      (k.statistics_kr = KERN_SUCCESS → (get_memory_info k t info).ret = 0) ∧
      (k.statistics_kr ≠ KERN_SUCCESS → (get_memory_info k t info).ret = 1) := by
  by_cases h : k.statistics_kr = KERN_SUCCESS
  · rw [get_memory_info_success k t info h]
    simp [h]
  · rw [get_memory_info_failure k t info h]
    simp [h]

/-- C2 at two concrete replies: scenario 1 returns 0, a `KERN_FAILURE` reply returns 1. -/
theorem C2_failure_iff_query_fails_witness :
    (get_memory_info (scenario1_reply 0 0) ⟨0⟩ stale_info).ret = 0 ∧
      (get_memory_info failing_reply ⟨0⟩ stale_info).ret = 1 :=
  ⟨(C2_failure_iff_query_fails (scenario1_reply 0 0) ⟨0⟩ stale_info).2.1 rfl,
    (C2_failure_iff_query_fails failing_reply ⟨0⟩ stale_info).2.2 (by decide)⟩

/-! ## C3: nothing is written on failure -/

/-- C3: when the statistics query does not report success, the caller's record
after the call is the record before the call, all five fields included. -/
theorem C3_failure_leaves_record (k : HostReply) (t : PortSpace) (info : MemoryInfo)
    (h : k.statistics_kr ≠ KERN_SUCCESS) :
    (get_memory_info k t info).info = info ∧
      (get_memory_info k t info).info.free_memory = info.free_memory ∧
      (get_memory_info k t info).info.active_memory = info.active_memory ∧
      (get_memory_info k t info).info.inactive_memory = info.inactive_memory ∧
      (get_memory_info k t info).info.wired_memory = info.wired_memory ∧
      (get_memory_info k t info).info.total_memory = info.total_memory := by
  rw [get_memory_info_failure k t info h]
  simp

/-- C3 at a `KERN_FAILURE` reply: the stale record 1, 2, 3, 4, 5 comes back unchanged. -/
theorem C3_failure_leaves_record_witness :
    failing_reply.statistics_kr ≠ KERN_SUCCESS ∧
      (get_memory_info failing_reply ⟨0⟩ stale_info).info =
        { free_memory := 1, active_memory := 2, inactive_memory := 3, wired_memory := 4,
          total_memory := 5 } :=
  ⟨by decide, (C3_failure_leaves_record failing_reply ⟨0⟩ stale_info (by decide)).1⟩

/-! ## C4: the products are exact for 32-bit operands -/

/-- C4: for a successful query with 32-bit counters and a page size that fits
in 32 bits, each of the four byte counts is the exact integer product of its
counter and the page size. -/
theorem C4_products_exact (k : HostReply) (t : PortSpace) (info : MemoryInfo)
    (h : k.statistics_kr = KERN_SUCCESS) (hfit : k.vm_stat.fits)
    (hp : k.pagesize < 2 ^ 32) :
    (get_memory_info k t info).info.free_memory = k.vm_stat.free_count * k.pagesize ∧
      (get_memory_info k t info).info.active_memory = k.vm_stat.active_count * k.pagesize ∧
      (get_memory_info k t info).info.inactive_memory =
        k.vm_stat.inactive_count * k.pagesize ∧
      (get_memory_info k t info).info.wired_memory = k.vm_stat.wire_count * k.pagesize := by
  rw [get_memory_info_success k t info h]
  obtain ⟨hf, ha, hi, hw⟩ := hfit
  simp only [NATURAL_MOD] at hf ha hi hw
  have hp64 : k.pagesize % 2 ^ 64 = k.pagesize := Nat.mod_eq_of_lt (by omega)
  have exact : ∀ c : Nat, c < 2 ^ 32 →
      (c % 2 ^ 64 * (k.pagesize % 2 ^ 64)) % 2 ^ 64 = c * k.pagesize := by
    intro c hc
    rw [hp64, Nat.mod_eq_of_lt (show c < 2 ^ 64 by omega)]
    exact Nat.mod_eq_of_lt (mul_lt_of_fit c k.pagesize hc hp)
  exact ⟨exact _ hf, exact _ ha, exact _ hi, exact _ hw⟩

/-- C4 at the largest 32-bit operands: every counter and the page size are
2^32 - 1 and each byte count is (2^32 - 1)^2, unreduced. -/
theorem C4_products_exact_witness :
    (get_memory_info
        { host_port := 0, page_size_kr := 0, pagesize := 2 ^ 32 - 1, statistics_kr := 0,
          vm_stat :=
            { free_count := 2 ^ 32 - 1, active_count := 2 ^ 32 - 1,
              inactive_count := 2 ^ 32 - 1, wire_count := 2 ^ 32 - 1 } }
        ⟨0⟩ zero_info).info.free_memory = (2 ^ 32 - 1) * (2 ^ 32 - 1) :=
  (C4_products_exact
    { host_port := 0, page_size_kr := 0, pagesize := 2 ^ 32 - 1, statistics_kr := 0,
      vm_stat :=
        { free_count := 2 ^ 32 - 1, active_count := 2 ^ 32 - 1,
          inactive_count := 2 ^ 32 - 1, wire_count := 2 ^ 32 - 1 } }
    ⟨0⟩ zero_info rfl (by decide) (by decide)).1

/-! ## C5: scenario 1 -/

/-- C5: with page size 4096, counters free 100, active 200, inactive 50,
wired 25 and a success status, the function returns 0 and the record holds
409600, 819200, 204800, 102400 and total 1536000, whatever it held before. -/
theorem C5_scenario1 (port : Nat) (page_size_kr : kern_return_t) (t : PortSpace)
    (info : MemoryInfo) :
    (get_memory_info (scenario1_reply port page_size_kr) t info).ret = 0 ∧
      (get_memory_info (scenario1_reply port page_size_kr) t info).info =
        { free_memory := 409600, active_memory := 819200, inactive_memory := 204800,
          wired_memory := 102400, total_memory := 1536000 } := by
  rw [get_memory_info_success _ t info rfl]
  simp only [scenario1_reply]
  norm_num

/-! ## C6: all counters zero -/

/-- C6: for every page size, a successful query whose four counters are zero
returns 0 and leaves all five fields of the record at 0. -/
theorem C6_zero_counts (k : HostReply) (t : PortSpace) (info : MemoryInfo)
    (h : k.statistics_kr = KERN_SUCCESS)
    (hz : k.vm_stat =
      { free_count := 0, active_count := 0, inactive_count := 0, wire_count := 0 }) :
    (get_memory_info k t info).ret = 0 ∧
      (get_memory_info k t info).info =
        { free_memory := 0, active_memory := 0, inactive_memory := 0, wired_memory := 0,
          total_memory := 0 } := by
  rw [get_memory_info_success k t info h, hz]
  simp

/-- C6 at scenario 3: page size 16384, all counters zero, stale record before. -/
theorem C6_zero_counts_witness :
    idle_reply.pagesize = 16384 ∧
      (get_memory_info idle_reply ⟨0⟩ stale_info).ret = 0 ∧
      (get_memory_info idle_reply ⟨0⟩ stale_info).info = zero_info :=
  ⟨rfl, C6_zero_counts idle_reply ⟨0⟩ stale_info rfl rfl⟩

/-! ## C7: a successful call overwrites every field -/

/-- C7: for the same host reply, two successful calls started on any two prior
records (and any two port states) leave records that agree in every field. -/
theorem C7_success_overwrites_all (k : HostReply) (t1 t2 : PortSpace)
    (info1 info2 : MemoryInfo) (h : k.statistics_kr = KERN_SUCCESS) :
    (get_memory_info k t1 info1).info = (get_memory_info k t2 info2).info := by
  rw [get_memory_info_success k t1 info1 h, get_memory_info_success k t2 info2 h]

/-- C7 at scenario 1, started once on a stale record and once on a zero record. -/
theorem C7_success_overwrites_all_witness :
    stale_info ≠ zero_info ∧
      (get_memory_info (scenario1_reply 0 0) ⟨0⟩ stale_info).info =
        (get_memory_info (scenario1_reply 0 0) ⟨3⟩ zero_info).info :=
  ⟨by decide, C7_success_overwrites_all (scenario1_reply 0 0) ⟨0⟩ ⟨3⟩ stale_info zero_info rfl⟩

/-! ## C8: the host handle -/

/-- C8, as stated, fails: started with no host reference held, the task holds
one after a successful call, one after a failed call, and three after three
calls in a row; the count after a call is not the count before it. -/
theorem C8_handle_not_released :
    (get_memory_info (scenario1_reply 0 0) ⟨0⟩ zero_info).ret = 0 ∧
      (get_memory_info (scenario1_reply 0 0) ⟨0⟩ zero_info).space.host_refs = 1 ∧
      (get_memory_info failing_reply ⟨0⟩ zero_info).ret = 1 ∧
      (get_memory_info failing_reply ⟨0⟩ zero_info).space.host_refs = 1 ∧
      (repeated_calls [scenario1_reply 0 0, failing_reply, idle_reply]
        { ret := 0, info := zero_info, space := ⟨0⟩ }).space.host_refs = 3 ∧
      (get_memory_info (scenario1_reply 0 0) ⟨0⟩ zero_info).space.host_refs ≠
        (PortSpace.mk 0).host_refs := by
  decide

/-- C8, amended: the function obtains the host handle once and releases it on
neither path, so the number of host references held after a call is one more
than before it, on success and on failure alike, and a run of n calls raises
it by n. -/
theorem C8_each_call_keeps_one_reference (k : HostReply) (t : PortSpace)
    (info : MemoryInfo) (ks : List HostReply) (r : Outcome) :
    (get_memory_info k t info).space.host_refs = t.host_refs + 1 ∧
      (repeated_calls ks r).space.host_refs = r.space.host_refs + ks.length := by
  refine ⟨?_, repeated_calls_host_refs ks r⟩
  by_cases h : k.statistics_kr = KERN_SUCCESS
  · rw [get_memory_info_success k t info h]
  · rw [get_memory_info_failure k t info h]

/-! ## C9: the total as one conversion of the summed page count -/

/-- C9: for every page size and all counters, wrapping included, the
`total_memory` of a successful call is the summed page count times the page
size, reduced modulo 2^64. -/
theorem C9_total_of_summed_pages (k : HostReply) (t : PortSpace) (info : MemoryInfo)
    (h : k.statistics_kr = KERN_SUCCESS) :
    (get_memory_info k t info).info.total_memory =
      ((k.vm_stat.free_count + k.vm_stat.active_count + k.vm_stat.inactive_count +
          k.vm_stat.wire_count) * k.pagesize) % 2 ^ 64 := by
  rw [get_memory_info_success k t info h]
  simp only [← Nat.mul_mod, Nat.add_mul]
  omega

/-- C9 at the wrapping reply: the summed page count 2^33 times the page size
2^31 is 2^64, and the total written is 0. -/
theorem C9_total_of_summed_pages_witness :
    (get_memory_info wrapping_reply ⟨0⟩ stale_info).info.total_memory =
        ((2 ^ 31 + 2 ^ 31 + 2 ^ 31 + 2 ^ 31) * 2 ^ 31) % 2 ^ 64 ∧
      ((2 ^ 31 + 2 ^ 31 + 2 ^ 31 + 2 ^ 31) * 2 ^ 31) % 2 ^ 64 = 0 :=
  ⟨C9_total_of_summed_pages wrapping_reply ⟨0⟩ stale_info rfl, by norm_num⟩

/-! ## C10: the status of the page-size query -/

/-- C10: two runs that agree on the statistics status, the four counters and
the page-size value give the same return value and the same record, whatever
the two statuses of the page-size query were. -/
theorem C10_page_size_status_ignored (k1 k2 : HostReply) (t : PortSpace)
    (info : MemoryInfo) (hs : k1.statistics_kr = k2.statistics_kr)
    (hv : k1.vm_stat = k2.vm_stat) (hp : k1.pagesize = k2.pagesize) :
    (get_memory_info k1 t info).ret = (get_memory_info k2 t info).ret ∧
      (get_memory_info k1 t info).info = (get_memory_info k2 t info).info := by
  by_cases h : k1.statistics_kr = KERN_SUCCESS
  · rw [get_memory_info_success k1 t info h, get_memory_info_success k2 t info (hs ▸ h),
      hv, hp]
    exact ⟨rfl, rfl⟩
  · rw [get_memory_info_failure k1 t info h, get_memory_info_failure k2 t info (hs ▸ h)]
    exact ⟨rfl, rfl⟩

/-- C10 at scenario 1: a page-size query reporting success (0) and one
reporting `KERN_FAILURE` (5) give the same return value 0 and the same record. -/
theorem C10_page_size_status_ignored_witness :
    (scenario1_reply 0 0).page_size_kr ≠ (scenario1_reply 0 5).page_size_kr ∧
      (get_memory_info (scenario1_reply 0 0) ⟨0⟩ stale_info).ret =
        (get_memory_info (scenario1_reply 0 5) ⟨0⟩ stale_info).ret ∧
      (get_memory_info (scenario1_reply 0 0) ⟨0⟩ stale_info).info =
        (get_memory_info (scenario1_reply 0 5) ⟨0⟩ stale_info).info :=
  ⟨by decide,
    C10_page_size_status_ignored (scenario1_reply 0 0) (scenario1_reply 0 5) ⟨0⟩ stale_info
      rfl rfl rfl⟩

end MemoryInfoC
